import Mathlib

/-!
Shallow embedding of the per-user daily-generation-quota tracker of the
backend service (src/api/main.py), together with the quota-relevant
control flow of the generate endpoint and the one-shot migration helper.

Modelling conventions:
* Timestamps are stored in the document store as ISO-8601 strings.  A stored
  string either parses to an instant or raises ValueError on
  `datetime.fromisoformat`; we model a stored timestamp string as `TimeStr`:
  either `valid t` carrying the instant `t` (an integer number of seconds),
  or `malformed` (any string whose parse fails; the empty string, which the
  code short-circuits on truthiness, lands in the same branch).  The code's
  timezone reconciliation (recomputing "now" in the anchor's timezone)
  makes both sides of every comparison denote instants, which is what the
  integer model captures.
* A Firestore document is a dict; a field read with `dict.get(k, d)` uses
  the default exactly when the key is absent.  Fields that the code may
  find absent are modelled as `Option`; `none` means the key is absent.
  This subsystem never writes a null into `firstGenerationDate`,
  `lastGenerationDate`, `dailyGenerations` or `maxDailyGenerations`, so
  absent-vs-null is not distinguished.  `planExpiry` is written as null on
  creation and read with a bare `get`, which treats null and absent
  identically, so both are `none`.
* A transaction is atomic: its buffered writes all commit or none do.  A
  transaction body is therefore a pure function from the store snapshot to
  (return value, post-commit store).  Failure of the surrounding machinery
  (client acquisition, the transaction run, the non-transactional fallback
  read) is modelled by explicit Boolean outcome flags feeding `Except`
  values, mirroring the try/except structure of the Python code.
-/

/-- A timestamp field as stored (an ISO-8601 string): it either parses to an
instant (integer seconds) or fails to parse. -/
inductive TimeStr where
  | valid : Int → TimeStr
  | malformed : TimeStr
deriving DecidableEq, Repr

/-- `datetime.fromisoformat` on a stored string: the instant, or a
ValueError (`none`). -/
def parseTime : TimeStr → Option Int
  | .valid t => some t
  | .malformed => none

/-- One document of the `users` collection (the UserQuota record of the
data model, src/api/main.py lines 673-681).  `none` on an `Option` field
means the key is absent from the document. -/
structure UserRecord where
  email : String
  plan : Option String
  maxDailyGenerations : Option Int
  dailyGenerations : Option Int
  firstGenerationDate : Option TimeStr
  lastGenerationDate : Option TimeStr
  planExpiry : Option TimeStr
deriving DecidableEq, Repr

/-- `timedelta(hours=24)` in seconds. -/
def twenty_four_hours : Int := 24 * 60 * 60

/-- Window-anchor computation shared verbatim by `check_limit_transaction`
(main.py lines 706-719) and `increment_transaction` (lines 809-822):
`user_data.get('firstGenerationDate', user_data.get('lastGenerationDate'))`,
then `fromisoformat` with a ValueError fallback to the current time, and a
fallback to the current time when the selected value is missing. -/
def windowAnchor (r : UserRecord) (now : Int) : Int :=
  match r.firstGenerationDate <|> r.lastGenerationDate with
  | some s =>
      match parseTime s with
      | some t => t
      | none => now
  | none => now

/-- Reconcile `maxDailyGenerations` with the current plan
(main.py lines 688-703): pro forces 20, free forces 3, each written only
when the stored value disagrees. -/
def sync_max_with_plan (r : UserRecord) : UserRecord :=
  let current_plan := r.plan.getD "free"
  if current_plan = "pro" then
    if r.maxDailyGenerations.getD 3 ≠ 20 then
      { r with maxDailyGenerations := some 20 }
    else r
  else if current_plan = "free" then
    if r.maxDailyGenerations.getD 3 ≠ 3 then
      { r with maxDailyGenerations := some 3 }
    else r
  else r

/-- Subscription-expiry handling (main.py lines 721-737): when `planExpiry`
is set and parses, and `current_time > expiry_date` and the plan is pro,
downgrade to free with limit 3 and clear the expiry; a ValueError on the
expiry parse only logs. -/
def apply_plan_expiry (now : Int) (r : UserRecord) : UserRecord :=
  match r.planExpiry with
  | some s =>
      match parseTime s with
      | some expiry_date =>
          if expiry_date < now ∧ r.plan = some "pro" then
            { r with plan := some "free", maxDailyGenerations := some 3,
                     planExpiry := none }
          else r
      | none => r
  | none => r

/-- The record created for a brand-new user (main.py lines 673-681). -/
def new_user_record (email : String) (now : Int) : UserRecord :=
  { email := email
    plan := some "free"
    maxDailyGenerations := some 3
    dailyGenerations := some 0
    firstGenerationDate := some (.valid now)
    lastGenerationDate := some (.valid now)
    planExpiry := none }

/-- The transactional body of the quota check (main.py lines 668-764):
create-with-defaults for an unseen user; otherwise plan sync, anchor
computation, expiry downgrade, 24h window reset, and finally the
capacity decision `dailyGenerations < maxDailyGenerations`.  Returns the
decision together with the post-commit record. -/
def check_limit_transaction (email : String) (now : Int)
    (store : Option UserRecord) : Bool × UserRecord :=
  match store with
  | none => (true, new_user_record email now)
  | some user_data =>
      let user_data := sync_max_with_plan user_data
      let first_gen_date := windowAnchor user_data now
      let user_data := apply_plan_expiry now user_data
      if twenty_four_hours ≤ now - first_gen_date then
        (true, { user_data with
                   dailyGenerations := some 0
                   firstGenerationDate := some (.valid now)
                   lastGenerationDate := some (.valid now) })
      else
        (decide (user_data.dailyGenerations.getD 0 <
                   user_data.maxDailyGenerations.getD 3),
         user_data)

/-- Outer wrapper `check_generation_limit` (main.py lines 661-793).  The
Boolean flags are the outcomes of the three fallible steps: obtaining the
store client (lines 663-664, whose failure reaches the outermost handler,
line 791, returning False), running the transaction (line 769, whose
failure enters the non-transactional fallback, lines 774-786), and the
fallback read itself (line 776, whose failure returns True, line 789).
The second component is the resulting store state. -/
def check_generation_limit (clientOk txOk readOk : Bool) (email : String)
    (now : Int) (store : Option UserRecord) : Bool × Option UserRecord :=
  match (if clientOk then Except.ok () else Except.error ()) with
  | .error _ => (false, store)
  | .ok _ =>
      match (if txOk then Except.ok (check_limit_transaction email now store)
             else (Except.error () : Except Unit (Bool × UserRecord))) with
      | .ok res => (res.1, some res.2)
      | .error _ =>
          match (if readOk then Except.ok store
                 else (Except.error () : Except Unit (Option UserRecord))) with
          | .ok (some user_data) =>
              (decide (user_data.dailyGenerations.getD 0 <
                         user_data.maxDailyGenerations.getD 3), store)
          | .ok none => (true, store)
          | .error _ => (true, store)

/-- The transactional body of the usage increment (main.py lines 802-841),
given the existing record: recompute the anchor; when 24h have elapsed
start a new window at count 1, otherwise `firestore.Increment(1)` (absent
field counts as 0) and refresh `lastGenerationDate`. -/
def increment_transaction (now : Int) (user_data : UserRecord) : UserRecord :=
  let first_gen_date := windowAnchor user_data now
  if twenty_four_hours ≤ now - first_gen_date then
    { user_data with
        dailyGenerations := some 1
        firstGenerationDate := some (.valid now)
        lastGenerationDate := some (.valid now) }
  else
    { user_data with
        dailyGenerations := some (user_data.dailyGenerations.getD 0 + 1)
        lastGenerationDate := some (.valid now) }

/-- `increment_generation_count` (main.py lines 795-848).  When the user
document does not exist, `to_dict()` yields None and the subsequent
`.get` raises; the handler at line 846 re-raises, so the caller sees an
exception and the store is untouched.  Otherwise the transaction body
runs and commits. -/
def increment_generation_count (now : Int) (store : Option UserRecord) :
    Except Unit Unit × Option UserRecord :=
  match store with
  | none => (Except.error (), none)
  | some user_data => (Except.ok (), some (increment_transaction now user_data))

/-- Per-record step of the migration backfill (main.py lines 858-870):
a record lacking `firstGenerationDate` receives the existing
`lastGenerationDate`, or the current time when that too is absent;
a record that has the field is untouched. -/
def migrate_user (now : Int) (user_data : UserRecord) : UserRecord :=
  match user_data.firstGenerationDate with
  | some _ => user_data
  | none =>
      { user_data with
          firstGenerationDate := some (user_data.lastGenerationDate.getD (.valid now)) }

/-- `migrate_existing_users` (main.py lines 851-875): the per-record
backfill applied across the `users` collection. -/
def migrate_existing_users (now : Int) (users : List UserRecord) :
    List UserRecord :=
  users.map (migrate_user now)

/-- The three quota-relevant control-flow routes of the generate endpoint
(main.py lines 143-474): editing an existing project (`project_id`
present, increment at line 319), full-stack generation (line 337,
increment at line 385 but an early 500 return at lines 347-351 when the
pipeline reports failure), and single frontend/backend generation
(increment at line 450; the pipeline's success flag is not consulted). -/
inductive GenRoute where
  | edit
  | fullstack
  | single
deriving DecidableEq, Repr

/-- Number of `increment_generation_count` invocations the generate
endpoint performs on a request, per route, given the quota decision and
the generation pipeline's reported success flag (the pipeline returns the
flag rather than raising: builder_agent.py lines 136-139,
fullstack_agent.py lines 114-123).  Persistence steps are assumed not to
raise. -/
def generate_website_increments (can_generate : Bool) (route : GenRoute)
    (gen_success : Bool) : Nat :=
  if can_generate = false then 0
  else
    match route with
    | .edit => 1
    | .fullstack => if gen_success then 1 else 0
    | .single => 1

/-! Helper lemmas: field preservation through the stages of the check
transaction, and the characterization of the check body for an existing
record. -/

theorem sync_plan (r : UserRecord) : (sync_max_with_plan r).plan = r.plan := by
  simp only [sync_max_with_plan]
  repeat' split
  all_goals rfl

theorem sync_dailyGenerations (r : UserRecord) :
    (sync_max_with_plan r).dailyGenerations = r.dailyGenerations := by
  simp only [sync_max_with_plan]
  repeat' split
  all_goals rfl

theorem sync_firstGenerationDate (r : UserRecord) :
    (sync_max_with_plan r).firstGenerationDate = r.firstGenerationDate := by
  simp only [sync_max_with_plan]
  repeat' split
  all_goals rfl

theorem sync_lastGenerationDate (r : UserRecord) :
    (sync_max_with_plan r).lastGenerationDate = r.lastGenerationDate := by
  simp only [sync_max_with_plan]
  repeat' split
  all_goals rfl

theorem sync_planExpiry (r : UserRecord) :
    (sync_max_with_plan r).planExpiry = r.planExpiry := by
  simp only [sync_max_with_plan]
  repeat' split
  all_goals rfl

theorem sync_maxEff_free (r : UserRecord) (h : r.plan.getD "free" = "free") :
    (sync_max_with_plan r).maxDailyGenerations.getD 3 = 3 := by
  rcases hm : r.maxDailyGenerations with _ | m
  · simp [sync_max_with_plan, h, hm]
  · by_cases hm3 : m = 3 <;> simp [sync_max_with_plan, h, hm, hm3]

theorem sync_maxEff_pro (r : UserRecord) (h : r.plan = some "pro") :
    (sync_max_with_plan r).maxDailyGenerations.getD 3 = 20 := by
  rcases hm : r.maxDailyGenerations with _ | m
  · simp [sync_max_with_plan, h, hm]
  · by_cases hm20 : m = 20 <;> simp [sync_max_with_plan, h, hm, hm20]

theorem windowAnchor_fields (r₁ r₂ : UserRecord) (now : Int)
    (h1 : r₁.firstGenerationDate = r₂.firstGenerationDate)
    (h2 : r₁.lastGenerationDate = r₂.lastGenerationDate) :
    windowAnchor r₁ now = windowAnchor r₂ now := by
  unfold windowAnchor
  rw [h1, h2]

theorem windowAnchor_sync (r : UserRecord) (now : Int) :
    windowAnchor (sync_max_with_plan r) now = windowAnchor r now :=
  windowAnchor_fields _ _ _ (sync_firstGenerationDate r) (sync_lastGenerationDate r)

theorem ape_dailyGenerations (now : Int) (r : UserRecord) :
    (apply_plan_expiry now r).dailyGenerations = r.dailyGenerations := by
  simp only [apply_plan_expiry]
  repeat' split
  all_goals rfl

theorem ape_firstGenerationDate (now : Int) (r : UserRecord) :
    (apply_plan_expiry now r).firstGenerationDate = r.firstGenerationDate := by
  simp only [apply_plan_expiry]
  repeat' split
  all_goals rfl

theorem ape_lastGenerationDate (now : Int) (r : UserRecord) :
    (apply_plan_expiry now r).lastGenerationDate = r.lastGenerationDate := by
  simp only [apply_plan_expiry]
  repeat' split
  all_goals rfl

theorem ape_cases (now : Int) (r : UserRecord) :
    apply_plan_expiry now r = r ∨
    apply_plan_expiry now r = { r with plan := some "free", maxDailyGenerations := some 3, planExpiry := none } := by
  rcases hpe : r.planExpiry with _ | s
  · left
    simp [apply_plan_expiry, hpe]
  · rcases s with t | _
    · by_cases hc : t < now ∧ r.plan = some "pro"
      · right
        simp [apply_plan_expiry, hpe, parseTime, hc]
      · left
        simp [apply_plan_expiry, hpe, parseTime, hc]
    · left
      simp [apply_plan_expiry, hpe, parseTime]

theorem ape_of_not_pro (now : Int) (r : UserRecord) (h : r.plan ≠ some "pro") :
    apply_plan_expiry now r = r := by
  rcases hpe : r.planExpiry with _ | s
  · simp [apply_plan_expiry, hpe]
  · rcases s with t | _
    · simp [apply_plan_expiry, hpe, parseTime, h]
    · simp [apply_plan_expiry, hpe, parseTime]

theorem ape_downgrade (now e : Int) (r : UserRecord)
    (hplan : r.plan = some "pro") (hexp : r.planExpiry = some (.valid e))
    (hlt : e < now) :
    apply_plan_expiry now r = { r with plan := some "free", maxDailyGenerations := some 3, planExpiry := none } := by
  simp only [apply_plan_expiry]
  rw [hexp]
  simp [parseTime, hplan, hlt]

theorem check_some_spec (email : String) (now : Int) (r : UserRecord) :
    check_limit_transaction email now (some r) =
      if twenty_four_hours ≤ now - windowAnchor r now then
        (true, { apply_plan_expiry now (sync_max_with_plan r) with
                   dailyGenerations := some 0
                   firstGenerationDate := some (.valid now)
                   lastGenerationDate := some (.valid now) })
      else
        (decide ((apply_plan_expiry now (sync_max_with_plan r)).dailyGenerations.getD 0 <
                 (apply_plan_expiry now (sync_max_with_plan r)).maxDailyGenerations.getD 3),
         apply_plan_expiry now (sync_max_with_plan r)) := by
  simp only [check_limit_transaction, windowAnchor_sync]

theorem migrate_user_idem (now1 now2 : Int) (r : UserRecord) :
    migrate_user now2 (migrate_user now1 r) = migrate_user now1 r := by
  rcases hf : r.firstGenerationDate with _ | s
  · simp [migrate_user, hf]
  · simp [migrate_user, hf]

/-- C8: for a user with no existing record, the first check returns true and
creates the record with the stored email, plan free, maxDailyGenerations 3,
dailyGenerations 0, and both window timestamps set to now
(main.py lines 669-684). -/
theorem first_check_creates_record (email : String) (now : Int) :
    check_limit_transaction email now none = (true, new_user_record email now)
    ∧ new_user_record email now =
        { email := email, plan := some "free", maxDailyGenerations := some 3, dailyGenerations := some 0, firstGenerationDate := some (TimeStr.valid now), lastGenerationDate := some (TimeStr.valid now), planExpiry := none } :=
  ⟨rfl, rfl⟩

/-- C10: increment on a user identifier with no stored record raises to its
caller (the missing document dereference, main.py lines 802-804, re-raised
at 846-848) and writes nothing; no record is lazily created. -/
theorem increment_missing_user_raises (now : Int) :
    increment_generation_count now none = (Except.error (), none) := rfl

/-- C9: the migration backfill is idempotent — running it twice (at any two
times) equals running it once, because a record that already carries
firstGenerationDate is left unchanged (main.py lines 858-870). -/
theorem migration_idempotent (now1 now2 : Int) (users : List UserRecord)
    (r : UserRecord) :
    migrate_existing_users now2 (migrate_existing_users now1 users) =
      migrate_existing_users now1 users
    ∧ (r.firstGenerationDate ≠ none → migrate_user now2 r = r) := by
  constructor
  · induction users with
    | nil => rfl
    | cons a l ih =>
        simpa [migrate_existing_users] using
          ⟨migrate_user_idem now1 now2 a, by simpa [migrate_existing_users] using ih⟩
  · intro h
    rcases hf : r.firstGenerationDate with _ | s
    · exact absurd hf h
    · simp [migrate_user, hf]

theorem migration_idempotent_witness :
    migrate_existing_users 9 (migrate_existing_users 7
        [{ new_user_record "e" 0 with firstGenerationDate := none }]) =
      migrate_existing_users 7 [{ new_user_record "e" 0 with firstGenerationDate := none }]
    ∧ migrate_user 9 (new_user_record "e" 0) = new_user_record "e" 0 := by
  have h := migration_idempotent 7 9
    [{ new_user_record "e" 0 with firstGenerationDate := none }] (new_user_record "e" 0)
  exact ⟨h.1, h.2 (by decide)⟩

/-- C4 counterexample: on the full-stack route an approved request whose
generation pipeline reports failure performs zero increments, not one
(main.py lines 347-351 return before the increment at line 385). -/
theorem fullstack_failure_no_increment :
    ¬ generate_website_increments true GenRoute.fullstack false = 1 := by decide

/-- C4 (amended): per approved request, the edit and single routes invoke
increment exactly once regardless of the pipeline's reported success; the
full-stack route invokes it exactly once on success and zero times when
the pipeline reports failure; a denied request never increments. -/
theorem generate_increment_policy (can_generate gen_success : Bool)
    (route : GenRoute) :
    (can_generate = false →
      generate_website_increments can_generate route gen_success = 0)
    ∧ (can_generate = true → route = GenRoute.edit ∨ route = GenRoute.single →
        generate_website_increments can_generate route gen_success = 1)
    ∧ (can_generate = true → route = GenRoute.fullstack →
        generate_website_increments can_generate route gen_success =
          if gen_success then 1 else 0) := by
  refine ⟨?_, ?_, ?_⟩
  · intro h
    subst h
    rfl
  · rintro h (h2 | h2) <;> subst h <;> subst h2 <;> rfl
  · intro h h2
    subst h
    subst h2
    rcases gen_success <;> rfl

theorem generate_increment_policy_witness :
    generate_website_increments false GenRoute.single true = 0
    ∧ generate_website_increments true GenRoute.single false = 1
    ∧ generate_website_increments true GenRoute.fullstack false = (if false then 1 else 0) :=
  ⟨(generate_increment_policy false true GenRoute.single).1 rfl,
   (generate_increment_policy true false GenRoute.single).2.1 rfl (Or.inr rfl),
   (generate_increment_policy true false GenRoute.fullstack).2.2 rfl rfl⟩

/-- C2 counterexample: a failure before the transaction is attempted
(obtaining the store client, main.py lines 663-664) is caught by the
outermost handler (lines 791-793), which returns False — not the
fail-open True the claim asserts for any other failure. -/
theorem check_fail_open_refuted :
    ¬ (check_generation_limit false true true "a@b.c" 0 none).1 = true := by decide

/-- C2 (amended): check always resolves to a boolean; with the client
obtained, a successful transaction decides; a failed transaction falls
back to the non-transactional read `dailyGenerations < maxDailyGenerations`
when the record exists, and to True when the record is absent or the read
itself fails; but a failure to obtain the client returns False
(fail-closed), contrary to the fail-open bias claimed for all failures. -/
theorem check_generation_limit_fallback_policy (clientOk txOk readOk : Bool)
    (email : String) (now : Int) (store : Option UserRecord) :
    (clientOk = true → txOk = true →
      check_generation_limit clientOk txOk readOk email now store =
        ((check_limit_transaction email now store).1,
         some (check_limit_transaction email now store).2))
    ∧ (clientOk = true → txOk = false → readOk = true →
        ∀ user_data, store = some user_data →
          check_generation_limit clientOk txOk readOk email now store =
            (decide (user_data.dailyGenerations.getD 0 <
                     user_data.maxDailyGenerations.getD 3), store))
    ∧ (clientOk = true → txOk = false → readOk = false ∨ store = none →
        check_generation_limit clientOk txOk readOk email now store = (true, store))
    ∧ (clientOk = false →
        check_generation_limit clientOk txOk readOk email now store = (false, store)) := by
  refine ⟨?_, ?_, ?_, ?_⟩
  · rintro rfl rfl
    rfl
  · rintro rfl rfl rfl user_data rfl
    rfl
  · rintro rfl rfl (h | h)
    · subst h
      rfl
    · subst h
      rcases readOk <;> rfl
  · rintro rfl
    rfl

theorem check_generation_limit_fallback_policy_witness :
    check_generation_limit true false true "e" 0 (some (new_user_record "e" 0)) =
      (true, some (new_user_record "e" 0))
    ∧ check_generation_limit true false false "e" 0 none = (true, none)
    ∧ check_generation_limit false false false "e" 0 none = (false, none) := by
  refine ⟨?_, ?_, ?_⟩
  · have h := (check_generation_limit_fallback_policy true false true "e" 0
      (some (new_user_record "e" 0))).2.1 rfl rfl rfl (new_user_record "e" 0) rfl
    simpa [new_user_record] using h
  · exact (check_generation_limit_fallback_policy true false false "e" 0 none).2.2.1
      rfl rfl (Or.inr rfl)
  · exact (check_generation_limit_fallback_policy false false false "e" 0 none).2.2.2 rfl

/-- C3: for an existing record whose window anchor lies at least 24 hours in
the past, check resets the window — dailyGenerations to 0, both window
timestamps to now — and returns true regardless of the prior count
(main.py lines 739-750). -/
theorem check_window_reset (email : String) (now : Int) (r : UserRecord)
    (h : twenty_four_hours ≤ now - windowAnchor r now) :
    (check_limit_transaction email now (some r)).1 = true
    ∧ ((check_limit_transaction email now (some r)).2).dailyGenerations = some 0
    ∧ ((check_limit_transaction email now (some r)).2).firstGenerationDate =
        some (TimeStr.valid now)
    ∧ ((check_limit_transaction email now (some r)).2).lastGenerationDate =
        some (TimeStr.valid now) := by
  rw [check_some_spec, if_pos h]
  exact ⟨rfl, rfl, rfl, rfl⟩

theorem check_window_reset_witness :
    (check_limit_transaction "e" 90000 (some { new_user_record "e" 0 with dailyGenerations := some 3 })).1 = true
    ∧ ((check_limit_transaction "e" 90000 (some { new_user_record "e" 0 with dailyGenerations := some 3 })).2).dailyGenerations = some 0
    ∧ ((check_limit_transaction "e" 90000 (some { new_user_record "e" 0 with dailyGenerations := some 3 })).2).firstGenerationDate = some (TimeStr.valid 90000)
    ∧ ((check_limit_transaction "e" 90000 (some { new_user_record "e" 0 with dailyGenerations := some 3 })).2).lastGenerationDate = some (TimeStr.valid 90000) :=
  check_window_reset "e" 90000 { new_user_record "e" 0 with dailyGenerations := some 3 } (by decide)

theorem inc_max (now : Int) (r : UserRecord) :
    (increment_transaction now r).maxDailyGenerations = r.maxDailyGenerations := by
  simp only [increment_transaction]
  split
  all_goals rfl

theorem inc_count_cases (now : Int) (r : UserRecord) :
    (increment_transaction now r).dailyGenerations = some 1 ∨
    (increment_transaction now r).dailyGenerations =
      some (r.dailyGenerations.getD 0 + 1) := by
  simp only [increment_transaction]
  split
  · left
    rfl
  · right
    rfl

theorem increment_count_after_reset (now2 : Int) (r1 : UserRecord)
    (h0 : r1.dailyGenerations = some 0)
    (hf : ∃ t, r1.firstGenerationDate = some (TimeStr.valid t)) :
    (increment_transaction now2 r1).dailyGenerations = some 1 := by
  obtain ⟨t, hft⟩ := hf
  simp only [increment_transaction]
  split
  · rfl
  · simp [h0]

/-- C5: a record with plan pro and a parsed planExpiry strictly in the past
is downgraded by check — plan free, maxDailyGenerations 3, planExpiry
cleared — within the same transaction (main.py lines 721-737), and the
capacity decision is then evaluated against the downgraded limit 3 (or the
window reset still grants access). -/
theorem check_plan_expiry_downgrade (email : String) (now e : Int)
    (r : UserRecord) (hplan : r.plan = some "pro")
    (hexp : r.planExpiry = some (TimeStr.valid e)) (hlt : e < now) :
    ((check_limit_transaction email now (some r)).2).plan = some "free"
    ∧ ((check_limit_transaction email now (some r)).2).maxDailyGenerations = some 3
    ∧ ((check_limit_transaction email now (some r)).2).planExpiry = none
    ∧ (check_limit_transaction email now (some r)).1 =
        (decide (twenty_four_hours ≤ now - windowAnchor r now)
          || decide (r.dailyGenerations.getD 0 < 3)) := by
  have hsp : (sync_max_with_plan r).plan = some "pro" := by
    rw [sync_plan, hplan]
  have hse : (sync_max_with_plan r).planExpiry = some (TimeStr.valid e) := by
    rw [sync_planExpiry, hexp]
  have hd := ape_downgrade now e (sync_max_with_plan r) hsp hse hlt
  rw [check_some_spec, hd]
  by_cases hw : twenty_four_hours ≤ now - windowAnchor r now
  · rw [if_pos hw]
    refine ⟨rfl, rfl, rfl, ?_⟩
    simp [hw]
  · rw [if_neg hw]
    refine ⟨rfl, rfl, rfl, ?_⟩
    simp [hw, sync_dailyGenerations]

def pro_expired_record : UserRecord :=
  { new_user_record "u" 0 with plan := some "pro", planExpiry := some (TimeStr.valid 0), dailyGenerations := some 2 }

theorem check_plan_expiry_downgrade_witness :
    ((check_limit_transaction "u" 10 (some pro_expired_record)).2).plan = some "free"
    ∧ ((check_limit_transaction "u" 10 (some pro_expired_record)).2).maxDailyGenerations = some 3
    ∧ ((check_limit_transaction "u" 10 (some pro_expired_record)).2).planExpiry = none
    ∧ (check_limit_transaction "u" 10 (some pro_expired_record)).1 =
        (decide (twenty_four_hours ≤ 10 - windowAnchor pro_expired_record 10)
          || decide (pro_expired_record.dailyGenerations.getD 0 < 3)) :=
  check_plan_expiry_downgrade "u" 10 0 pro_expired_record rfl rfl (by decide)

/-- C6: increment started at least 24 hours past the window anchor writes
dailyGenerations exactly 1, not old value plus one (main.py lines
824-832); and increment performed right after a window-reset-triggering
check also leaves dailyGenerations at 1. -/
theorem increment_new_window_count_one (email : String) (now now2 : Int)
    (r : UserRecord) :
    (twenty_four_hours ≤ now - windowAnchor r now →
      (increment_transaction now r).dailyGenerations = some 1)
    ∧ (twenty_four_hours ≤ now - windowAnchor r now →
      (increment_transaction now2
        ((check_limit_transaction email now (some r)).2)).dailyGenerations = some 1) := by
  constructor
  · intro h
    simp only [increment_transaction]
    rw [if_pos h]
  · intro h
    apply increment_count_after_reset
    · rw [check_some_spec, if_pos h]
    · exact ⟨now, by rw [check_some_spec, if_pos h]⟩

theorem increment_new_window_count_one_witness :
    (increment_transaction 90000 { new_user_record "e" 0 with dailyGenerations := some 2 }).dailyGenerations = some 1
    ∧ (increment_transaction 90010
        ((check_limit_transaction "e" 90000 (some { new_user_record "e" 0 with dailyGenerations := some 2 })).2)).dailyGenerations = some 1 :=
  ⟨(increment_new_window_count_one "e" 90000 90010 { new_user_record "e" 0 with dailyGenerations := some 2 }).1 (by decide),
   (increment_new_window_count_one "e" 90000 90010 { new_user_record "e" 0 with dailyGenerations := some 2 }).2 (by decide)⟩

theorem sync_set_first (r : UserRecord) (x : Option TimeStr) :
    sync_max_with_plan { r with firstGenerationDate := x } =
      { sync_max_with_plan r with firstGenerationDate := x } := by
  obtain ⟨em, pl, mx, dg, fg, lg, pe⟩ := r
  simp only [sync_max_with_plan]
  repeat' split
  all_goals simp_all

theorem ape_set_first (now : Int) (r : UserRecord) (x : Option TimeStr) :
    apply_plan_expiry now { r with firstGenerationDate := x } =
      { apply_plan_expiry now r with firstGenerationDate := x } := by
  obtain ⟨em, pl, mx, dg, fg, lg, pe⟩ := r
  rcases pe with _ | s
  · rfl
  · rcases s with t | _
    · by_cases hc : t < now ∧ pl = some "pro"
      · simp [apply_plan_expiry, parseTime, hc]
      · simp [apply_plan_expiry, parseTime, hc]
    · rfl

/-- C7: both check and increment resolve the window anchor through
`windowAnchor` (main.py lines 706-719 and 809-822): firstGenerationDate
when present and parsable; lastGenerationDate when firstGenerationDate is
absent; the current time when the selected field is absent or fails to
parse.  A malformed timestamp never aborts: it only moves the anchor to
now, so check still reaches its capacity decision and increment still
increments. -/
theorem window_anchor_resolution (email : String) (now t : Int)
    (r : UserRecord) :
    (r.firstGenerationDate = some (TimeStr.valid t) → windowAnchor r now = t)
    ∧ (r.firstGenerationDate = none →
        r.lastGenerationDate = some (TimeStr.valid t) → windowAnchor r now = t)
    ∧ (r.firstGenerationDate = none → r.lastGenerationDate = none →
        windowAnchor r now = now)
    ∧ (r.firstGenerationDate = some TimeStr.malformed → windowAnchor r now = now)
    ∧ (r.firstGenerationDate = none →
        r.lastGenerationDate = some TimeStr.malformed → windowAnchor r now = now)
    ∧ (r.firstGenerationDate = some TimeStr.malformed →
        (check_limit_transaction email now (some r)).1 =
          (check_limit_transaction email now
            (some { r with firstGenerationDate := some (TimeStr.valid now) })).1)
    ∧ (r.firstGenerationDate = some TimeStr.malformed →
        (increment_transaction now r).dailyGenerations =
          some (r.dailyGenerations.getD 0 + 1)) := by
  have h4 : r.firstGenerationDate = some TimeStr.malformed →
      windowAnchor r now = now := by
    intro h
    unfold windowAnchor
    rw [h]
    rfl
  have hnn : ¬ (twenty_four_hours ≤ now - now) := by
    simp only [twenty_four_hours]
    omega
  refine ⟨?_, ?_, ?_, h4, ?_, ?_, ?_⟩
  · intro h
    unfold windowAnchor
    rw [h]
    rfl
  · intro h1 h2
    unfold windowAnchor
    rw [h1, h2]
    rfl
  · intro h1 h2
    unfold windowAnchor
    rw [h1, h2]
    rfl
  · intro h1 h2
    unfold windowAnchor
    rw [h1, h2]
    rfl
  · intro h
    have hB : windowAnchor { r with firstGenerationDate := some (TimeStr.valid now) } now
        = now := by
      unfold windowAnchor
      rfl
    rw [check_some_spec email now r,
        check_some_spec email now { r with firstGenerationDate := some (TimeStr.valid now) },
        h4 h, hB, if_neg hnn, if_neg hnn]
    conv_rhs => rw [sync_set_first r (some (TimeStr.valid now)),
      ape_set_first now (sync_max_with_plan r) (some (TimeStr.valid now))]
  · intro h
    simp only [increment_transaction]
    rw [h4 h, if_neg hnn]

theorem window_anchor_resolution_witness :
    windowAnchor { new_user_record "e" 0 with firstGenerationDate := some (TimeStr.valid 5) } 100 = 5
    ∧ windowAnchor { new_user_record "e" 0 with firstGenerationDate := none, lastGenerationDate := some (TimeStr.valid 7) } 100 = 7
    ∧ windowAnchor { new_user_record "e" 0 with firstGenerationDate := none, lastGenerationDate := none } 100 = 100
    ∧ windowAnchor { new_user_record "e" 0 with firstGenerationDate := some TimeStr.malformed } 100 = 100
    ∧ windowAnchor { new_user_record "e" 0 with firstGenerationDate := none, lastGenerationDate := some TimeStr.malformed } 100 = 100
    ∧ (check_limit_transaction "e" 100 (some { new_user_record "e" 0 with firstGenerationDate := some TimeStr.malformed })).1 =
        (check_limit_transaction "e" 100 (some { { new_user_record "e" 0 with firstGenerationDate := some TimeStr.malformed } with firstGenerationDate := some (TimeStr.valid 100) })).1
    ∧ (increment_transaction 100 { new_user_record "e" 0 with firstGenerationDate := some TimeStr.malformed }).dailyGenerations =
        some ({ new_user_record "e" 0 with firstGenerationDate := some TimeStr.malformed }.dailyGenerations.getD 0 + 1) :=
  ⟨(window_anchor_resolution "e" 100 5 { new_user_record "e" 0 with firstGenerationDate := some (TimeStr.valid 5) }).1 rfl,
   (window_anchor_resolution "e" 100 7 { new_user_record "e" 0 with firstGenerationDate := none, lastGenerationDate := some (TimeStr.valid 7) }).2.1 rfl rfl,
   (window_anchor_resolution "e" 100 0 { new_user_record "e" 0 with firstGenerationDate := none, lastGenerationDate := none }).2.2.1 rfl rfl,
   (window_anchor_resolution "e" 100 0 { new_user_record "e" 0 with firstGenerationDate := some TimeStr.malformed }).2.2.2.1 rfl,
   (window_anchor_resolution "e" 100 0 { new_user_record "e" 0 with firstGenerationDate := none, lastGenerationDate := some TimeStr.malformed }).2.2.2.2.1 rfl rfl,
   (window_anchor_resolution "e" 100 0 { new_user_record "e" 0 with firstGenerationDate := some TimeStr.malformed }).2.2.2.2.2.1 rfl,
   (window_anchor_resolution "e" 100 0 { new_user_record "e" 0 with firstGenerationDate := some TimeStr.malformed }).2.2.2.2.2.2 rfl⟩

theorem check_post_maxEff (email : String) (now : Int) (r : UserRecord)
    (h : r.plan.getD "free" = "free" ∨ r.plan = some "pro") :
    ((check_limit_transaction email now (some r)).2).maxDailyGenerations.getD 3 = 3 ∨
    ((check_limit_transaction email now (some r)).2).maxDailyGenerations.getD 3 = 20 := by
  have hsm : (sync_max_with_plan r).maxDailyGenerations.getD 3 = 3 ∨
      (sync_max_with_plan r).maxDailyGenerations.getD 3 = 20 := by
    rcases h with h | h
    · exact Or.inl (sync_maxEff_free r h)
    · exact Or.inr (sync_maxEff_pro r h)
  rw [check_some_spec]
  by_cases hw : twenty_four_hours ≤ now - windowAnchor r now
  · rcases ape_cases now (sync_max_with_plan r) with he | he
    · rw [if_pos hw, he]
      simpa using hsm
    · rw [if_pos hw, he]
      left
      simp
  · rcases ape_cases now (sync_max_with_plan r) with he | he
    · rw [if_neg hw, he]
      simpa using hsm
    · rw [if_neg hw, he]
      left
      simp

theorem check_true_capacity (email : String) (now : Int) (r : UserRecord)
    (h : r.plan.getD "free" = "free" ∨ r.plan = some "pro")
    (ht : (check_limit_transaction email now (some r)).1 = true) :
    ((check_limit_transaction email now (some r)).2).dailyGenerations.getD 0 <
      ((check_limit_transaction email now (some r)).2).maxDailyGenerations.getD 3 := by
  have hm := check_post_maxEff email now r h
  by_cases hw : twenty_four_hours ≤ now - windowAnchor r now
  · have hc : ((check_limit_transaction email now (some r)).2).dailyGenerations.getD 0 = 0 := by
      rw [check_some_spec, if_pos hw]
      rfl
    rw [hc]
    rcases hm with hm | hm <;> rw [hm] <;> norm_num
  · have h2 : (check_limit_transaction email now (some r)).2 =
        apply_plan_expiry now (sync_max_with_plan r) := by
      rw [check_some_spec, if_neg hw]
    rw [check_some_spec, if_neg hw] at ht
    rw [h2]
    simpa using ht

/-- C1: for a record whose plan is a known tier (free or pro, as the data
model prescribes), a successful check followed by an increment leaves
dailyGenerations at most maxDailyGenerations (main.py lines 752-764 gate,
lines 824-841 increment); and for a record whose cached limit is
consistent with its plan, once dailyGenerations equals maxDailyGenerations
and the window has not expired, the next check returns false. -/
theorem quota_check_increment_invariant (email : String) (now now2 : Int)
    (r : UserRecord) :
    ((r.plan.getD "free" = "free" ∨ r.plan = some "pro") →
      (check_limit_transaction email now (some r)).1 = true →
      (increment_transaction now2
          ((check_limit_transaction email now (some r)).2)).dailyGenerations.getD 0 ≤
        (increment_transaction now2
          ((check_limit_transaction email now (some r)).2)).maxDailyGenerations.getD 3)
    ∧ (((r.plan.getD "free" = "free" ∧ r.maxDailyGenerations.getD 3 = 3) ∨
          (r.plan = some "pro" ∧ r.maxDailyGenerations.getD 3 = 20)) →
        r.dailyGenerations.getD 0 = r.maxDailyGenerations.getD 3 →
        now - windowAnchor r now < twenty_four_hours →
        (check_limit_transaction email now (some r)).1 = false) := by
  constructor
  · intro hp ht
    have hcap := check_true_capacity email now r hp ht
    have hmax := check_post_maxEff email now r hp
    have him := inc_max now2 ((check_limit_transaction email now (some r)).2)
    have hic := inc_count_cases now2 ((check_limit_transaction email now (some r)).2)
    rcases hic with hic | hic <;> rw [hic, him]
    · rcases hmax with hm | hm <;> rw [hm] <;> simp
    · simp only [Option.getD_some]
      omega
  · intro hcons hcount hw
    have hnw : ¬ (twenty_four_hours ≤ now - windowAnchor r now) := by omega
    have hmax2 : ¬ ((apply_plan_expiry now (sync_max_with_plan r)).dailyGenerations.getD 0 <
        (apply_plan_expiry now (sync_max_with_plan r)).maxDailyGenerations.getD 3) := by
      rcases hcons with ⟨hpl, hmx⟩ | ⟨hpl, hmx⟩
      · have hsync := sync_maxEff_free r hpl
        have hnp : (sync_max_with_plan r).plan ≠ some "pro" := by
          rw [sync_plan]
          intro hq
          rw [hq] at hpl
          exact absurd hpl (by decide)
        rw [ape_of_not_pro now _ hnp, sync_dailyGenerations, hsync]
        omega
      · rcases ape_cases now (sync_max_with_plan r) with he | he <;> rw [he]
        · rw [sync_dailyGenerations, sync_maxEff_pro r hpl]
          omega
        · simp only [sync_dailyGenerations, Option.getD_some]
          omega
    rw [check_some_spec, if_neg hnw]
    simpa using hmax2

theorem quota_check_increment_invariant_witness :
    (increment_transaction 10
        ((check_limit_transaction "e" 0 (some (new_user_record "e" 0))).2)).dailyGenerations.getD 0 ≤
      (increment_transaction 10
        ((check_limit_transaction "e" 0 (some (new_user_record "e" 0))).2)).maxDailyGenerations.getD 3
    ∧ (check_limit_transaction "e" 0 (some { new_user_record "e" 0 with dailyGenerations := some 3 })).1 = false :=
  ⟨(quota_check_increment_invariant "e" 0 10 (new_user_record "e" 0)).1 (Or.inl (by decide)) (by decide),
   (quota_check_increment_invariant "e" 0 10 { new_user_record "e" 0 with dailyGenerations := some 3 }).2
     (Or.inl ⟨by decide, by decide⟩) (by decide) (by decide)⟩
